import Mathlib

/-!
Verification of the access-token lifecycle manager of the contacts
application (frontend/src/auth.ts and the contacts page server load).

The embedding models:
- `refreshAccessToken` — the token refresh protocol client;
- `jwt` — the session-gate callback (initial sign-in vs reuse vs refresh);
- `session` — the session projector callback;
- `redirect` — the redirect policy callback, together with a model of
  WHATWG URL origin extraction (`originOf`) standing for `new URL(url).origin`,
  where a `none` result models the `TypeError` thrown by `new URL` on an
  input that does not parse as an absolute URL;
- `load` — the contacts page server load.

External effects (the IDP token endpoint exchange, the contacts API fetch,
the clock) are passed in as explicit values: a `FetchOutcome` describes the
one network exchange a refresh performs, integers `nowCheck`/`nowResp`
describe the two `Date.now()` reads, and the second component of `jwt`'s
result counts how many refresh-client invocations the callback made.
-/

/-- The JWT token record persisted between requests.  `error` is the
optional `error` property (`"RefreshAccessTokenError"` when the last
refresh failed); `rest` stands for all remaining claims of the token
object (user identity claims etc.), which the source only ever carries
through object spreads `{ ...token, ... }`. -/
structure Token where
  accessToken : String
  refreshToken : String
  accessTokenExpires : Int
  error : Option String
  rest : List (String × String)
deriving Repr, DecidableEq

/-- The JSON body of a successful IDP token-endpoint response, with the
fields the client consumes: `access_token`, `expires_in` (seconds) and the
optional rotated `refresh_token`. -/
structure RefreshedTokens where
  access_token : String
  expires_in : Int
  refresh_token : Option String
deriving Repr, DecidableEq

/-- Outcome of the single network exchange `refreshAccessToken` performs:
`networkError` models `fetch` rejecting, `invalidJson` models
`response.json()` throwing (the response status is recorded but unused,
as in the source the body is parsed before the status is checked), and
`response ok body` a response whose body parsed, with `ok` the value of
`response.ok`. -/
inductive FetchOutcome where
  | networkError
  | invalidJson (ok : Bool)
  | response (ok : Bool) (body : RefreshedTokens)
deriving Repr, DecidableEq

/-- `refreshAccessToken` from auth.ts.  `nowResp` is the `Date.now()`
read on line 34, taken after the response arrived.  The `try`/`catch`
collapses every throwing path — `fetch` rejection, `response.json()`
throwing, and the explicit `throw refreshedTokens` on a non-ok status —
into the single `{ ...token, error: "RefreshAccessTokenError" }` result,
so the function never propagates an exception and is total here. -/
def refreshAccessToken (nowResp : Int) (token : Token) (outcome : FetchOutcome) : Token :=
  match outcome with
  | .response true body =>
      { token with
        accessToken := body.access_token
        accessTokenExpires := nowResp + body.expires_in * 1000
        refreshToken := body.refresh_token.getD token.refreshToken }
  | _ => { token with error := some "RefreshAccessTokenError" }

/-- `true` exactly on the outcomes the source's `catch` block absorbs. -/
def isRefreshFailure : FetchOutcome → Bool
  | .response true _ => false
  | _ => true

/-- The slice of the `account` object delivered once by the IDP
authorization-code callback: `access_token`, `refresh_token`,
`expires_at` (epoch seconds). -/
structure Account where
  access_token : String
  refresh_token : String
  expires_at : Int
deriving Repr, DecidableEq

/-- The `jwt` callback.  `nowCheck` is the `Date.now()` read on line 68;
`nowResp` the one inside `refreshAccessToken`; `outcome` the result of
the refresh exchange should one be made.  The second component counts
how many times the refresh protocol client was invoked. -/
def jwt (nowCheck nowResp : Int) (token : Token) (account : Option Account)
    (outcome : FetchOutcome) : Token × Nat :=
  match account with
  | some a =>
      ({ token with
          accessToken := a.access_token
          refreshToken := a.refresh_token
          accessTokenExpires := a.expires_at * 1000 }, 0)
  | none =>
      if nowCheck < token.accessTokenExpires then
        (token, 0)
      else
        (refreshAccessToken nowResp token outcome, 1)

/-- The session object visible to consumers (CustomSession): the default
session data (modelled by `user`) plus the projected `accessToken` and
`error`.  The type has no refresh-token field, mirroring the source where
`refreshToken` is never copied onto the session. -/
structure Session where
  user : String
  accessToken : String
  error : Option String
deriving Repr, DecidableEq

/-- The `session` callback: projects `accessToken` and `error` from the
token onto the incoming session object, leaving everything else (the
user data carried since sign-in) untouched. -/
def session (s : Session) (token : Token) : Session :=
  { s with accessToken := token.accessToken, error := token.error }

/-- One full request through the session gate outside sign-in handling:
run `jwt`, then project the session; the second component is the number
of refresh calls made while producing that session. -/
def handleRequest (nowCheck nowResp : Int) (token : Token) (account : Option Account)
    (outcome : FetchOutcome) (s : Session) : Session × Nat :=
  let r := jwt nowCheck nowResp token account outcome
  (session s r.1, r.2)

/-- ASCII lowercasing of one character (A–Z shifted into a–z, all other
code points unchanged). -/
def lowerChar (c : Char) : Char :=
  if 65 ≤ c.toNat ∧ c.toNat ≤ 90 then Char.ofNat (c.toNat + 32) else c

/-- ASCII lowercasing of a character list. -/
def mapLower (l : List Char) : List Char :=
  l.map lowerChar

/-- A contact record as served by the contacts API. -/
structure Contact where
  id : Int
  first_name : String
  last_name : String
  email : String
  phone_number : String
deriving Repr, DecidableEq

/-- Outcome of the contacts-API fetch in the page load: `networkError`
models `fetch` rejecting; `response ok body` a received response with
status flag `ok`, where `body = none` models a body `response.json()`
cannot parse. -/
inductive ContactsFetch where
  | networkError
  | response (ok : Bool) (body : Option (List Contact))
deriving Repr, DecidableEq

/-- The value returned to the contacts page. -/
structure LoadResult where
  contacts : List Contact
deriving Repr, DecidableEq

/-- The contacts `load` function (routes/contacts/+page.server.ts).  The
session argument is read for the bearer header only; `Except.error ()`
models an exception escaping `load` (there is no try/catch in the
source): `fetch` rejecting, or `response.json()` throwing on an ok
response.  A non-ok response returns `{ contacts: [] }` without ever
touching the body. -/
def load (_s : Option Session) (outcome : ContactsFetch) : Except Unit LoadResult :=
  match outcome with
  | .networkError => .error ()
  | .response ok body =>
      if ok then
        match body with
        | some contacts => .ok { contacts := contacts }
        | none => .error ()
      else
        .ok { contacts := [] }

/-! ## Claim theorems: token lifecycle -/

/-- C1: outside the initial sign-in branch, the session gate invokes the
refresh protocol client iff `now ≥ accessTokenExpires`, and at most once
per request: a fresh token is returned unchanged with zero refresh calls,
and an expired token triggers exactly one refresh call before the session
for the request is produced. -/
theorem jwt_refresh_gate (nc nr : Int) (t : Token) (o : FetchOutcome) (s : Session) :
    (nc < t.accessTokenExpires →
      handleRequest nc nr t none o s = (session s t, 0) ∧ jwt nc nr t none o = (t, 0)) ∧
    (t.accessTokenExpires ≤ nc →
      handleRequest nc nr t none o s = (session s (refreshAccessToken nr t o), 1)) ∧
    (handleRequest nc nr t none o s).2 ≤ 1 := by
  refine ⟨fun h => ?_, fun h => ?_, ?_⟩
  · simp [handleRequest, jwt, h]
  · have h' : ¬ nc < t.accessTokenExpires := not_lt.mpr h
    simp [handleRequest, jwt, h']
  · by_cases h : nc < t.accessTokenExpires <;> simp [handleRequest, jwt, h]

/-- Witness for C1: a fresh token (expiry 100, now 0) passes through with
zero refresh calls; an expired one (expiry 100, now 200) makes exactly one. -/
theorem jwt_refresh_gate_witness :
    jwt 0 0 ⟨"A", "R", 100, none, []⟩ none .networkError = (⟨"A", "R", 100, none, []⟩, 0) ∧
    handleRequest 200 200 ⟨"A", "R", 100, none, []⟩ none .networkError ⟨"u", "", none⟩ =
      (session ⟨"u", "", none⟩ (refreshAccessToken 200 ⟨"A", "R", 100, none, []⟩ .networkError), 1) :=
  ⟨((jwt_refresh_gate 0 0 ⟨"A", "R", 100, none, []⟩ .networkError ⟨"u", "", none⟩).1
      (by decide)).2,
   (jwt_refresh_gate 200 200 ⟨"A", "R", 100, none, []⟩ .networkError ⟨"u", "", none⟩).2.1
      (by decide)⟩

/-- C2: every failure of the refresh exchange — network error, unparseable
body, or a non-2xx response — yields the prior token with only the `error`
field set to `"RefreshAccessTokenError"`; in particular `accessToken` and
`refreshToken` are preserved bit-for-bit, and no exception escapes (the
embedding is a total function precisely because the source catches every
throwing path). -/
theorem refreshAccessToken_failure (nr : Int) (t : Token) (o : FetchOutcome)
    (h : isRefreshFailure o = true) :
    refreshAccessToken nr t o = { t with error := some "RefreshAccessTokenError" } := by
  cases o with
  | networkError => rfl
  | invalidJson ok => rfl
  | response ok body =>
    cases ok with
    | true => simp [isRefreshFailure] at h
    | false => rfl

/-- Witness for C2 at a concrete token and an HTTP 400 response. -/
theorem refreshAccessToken_failure_witness :
    refreshAccessToken 0 ⟨"A1", "R1", 5, none, [("sub", "u")]⟩
        (.response false ⟨"A2", 300, none⟩) =
      ⟨"A1", "R1", 5, some "RefreshAccessTokenError", [("sub", "u")]⟩ :=
  refreshAccessToken_failure 0 ⟨"A1", "R1", 5, none, [("sub", "u")]⟩
    (.response false ⟨"A2", 300, none⟩) rfl

/-- C3 counterexample: a successful refresh does **not** clear the error
field.  Starting from a token whose previous refresh failed, a subsequent
successful exchange still carries `error = "RefreshAccessTokenError"`,
because the success branch spreads the old token without deleting
`error`. -/
theorem refreshAccessToken_error_not_cleared :
    (refreshAccessToken 1000 ⟨"A1", "R1", 0, some "RefreshAccessTokenError", []⟩
        (.response true ⟨"A2", 300, none⟩)).error = some "RefreshAccessTokenError" := rfl

/-- C3 amended: a successful refresh sets `accessToken` to the response's
`access_token` and `accessTokenExpires` to `now + expires_in * 1000`
evaluated when the response is received, but the `error` field is carried
over from the input token unchanged rather than cleared. -/
theorem refreshAccessToken_success (nr : Int) (t : Token) (body : RefreshedTokens) :
    (refreshAccessToken nr t (.response true body)).accessToken = body.access_token ∧
    (refreshAccessToken nr t (.response true body)).accessTokenExpires
        = nr + body.expires_in * 1000 ∧
    (refreshAccessToken nr t (.response true body)).error = t.error :=
  ⟨rfl, rfl, rfl⟩

/-- C4: on a successful refresh, a `refresh_token` present in the response
replaces the stored one, and an absent `refresh_token` leaves the stored
one unchanged. -/
theorem refreshAccessToken_rotation (nr : Int) (t : Token) (a : String) (e : Int) (r : String) :
    (refreshAccessToken nr t (.response true ⟨a, e, some r⟩)).refreshToken = r ∧
    (refreshAccessToken nr t (.response true ⟨a, e, none⟩)).refreshToken = t.refreshToken :=
  ⟨rfl, rfl⟩

/-- C5: the projected session never depends on the stored refresh token
(two token records differing only in `refreshToken` project to identical
sessions — and the `Session` type has no refresh-token field at all); the
session's `accessToken` is the token's, the user data is carried through
unchanged, and its error is `"RefreshAccessTokenError"` exactly when the
token records a failed refresh. -/
theorem session_projection (s : Session) (t : Token) (x : String) :
    session s { t with refreshToken := x } = session s t ∧
    (session s t).accessToken = t.accessToken ∧
    (session s t).user = s.user ∧
    ((session s t).error = some "RefreshAccessTokenError" ↔
      t.error = some "RefreshAccessTokenError") :=
  ⟨rfl, rfl, rfl, Iff.rfl⟩

/-- C7: a recorded refresh failure is not sticky.  For any token carrying
`error = "RefreshAccessTokenError"` whose access token is expired, the
next request still takes the refresh path (exactly one refresh call), so
the system is never stuck in a state where refresh is no longer
attempted. -/
theorem jwt_retries_after_failure (nc nr : Int) (t : Token) (o : FetchOutcome)
    (he : t.error = some "RefreshAccessTokenError") (hx : t.accessTokenExpires ≤ nc) :
    (jwt nc nr t none o).2 = 1 ∧
    (jwt nc nr t none o).1 = refreshAccessToken nr t o := by
  have h' : ¬ nc < t.accessTokenExpires := not_lt.mpr hx
  simp [jwt, h']

/-- Witness for C7: an expired token in the failed state still triggers a
refresh call, which here succeeds. -/
theorem jwt_retries_after_failure_witness :
    (jwt 5 5 ⟨"A1", "R1", 3, some "RefreshAccessTokenError", []⟩ none
        (.response true ⟨"A2", 60, none⟩)).2 = 1 :=
  (jwt_retries_after_failure 5 5 ⟨"A1", "R1", 3, some "RefreshAccessTokenError", []⟩
      (.response true ⟨"A2", 60, none⟩) rfl (by decide)).1

/-- C9 counterexample: the contacts page load is not exception-free for
every failed fetch.  A network-level rejection of `fetch` propagates out
of `load` (there is no try/catch in the source) instead of yielding
`{ contacts: [] }`. -/
theorem load_throws_on_network_error :
    load none ContactsFetch.networkError = .error () ∧
    load none ContactsFetch.networkError ≠ .ok ⟨[]⟩ :=
  ⟨rfl, fun h => Except.noConfusion h⟩

/-- C9 amended: for every session state (including an error-carrying or
absent session), a contacts-API response that is *received* with non-2xx
status yields `{ contacts: [] }` without throwing, and a 2xx response
yields its parsed body; but a network-level fetch rejection, or an
unparseable body on a 2xx response, escapes `load` as an exception. -/
theorem load_degrades_on_http_failure (s : Option Session) (body : Option (List Contact))
    (cs : List Contact) :
    load s (.response false body) = .ok ⟨[]⟩ ∧
    load s (.response true (some cs)) = .ok ⟨cs⟩ ∧
    load s (.response true none) = .error () ∧
    load s .networkError = .error () :=
  ⟨rfl, rfl, rfl, rfl⟩

/-- C10: `refreshAccessToken` only touches the fields it is defined to
change.  On success the spread-carried claims (`rest`) and the `error`
field are unchanged; on failure `accessToken`, `refreshToken`,
`accessTokenExpires` and `rest` are all unchanged. -/
theorem refreshAccessToken_frame (nr : Int) (t : Token) (body : RefreshedTokens)
    (o : FetchOutcome) (hf : isRefreshFailure o = true) :
    (refreshAccessToken nr t (.response true body)).rest = t.rest ∧
    (refreshAccessToken nr t (.response true body)).error = t.error ∧
    (refreshAccessToken nr t o).accessToken = t.accessToken ∧
    (refreshAccessToken nr t o).refreshToken = t.refreshToken ∧
    (refreshAccessToken nr t o).accessTokenExpires = t.accessTokenExpires ∧
    (refreshAccessToken nr t o).rest = t.rest := by
  cases o with
  | networkError => exact ⟨rfl, rfl, rfl, rfl, rfl, rfl⟩
  | invalidJson ok => exact ⟨rfl, rfl, rfl, rfl, rfl, rfl⟩
  | response ok b =>
    cases ok with
    | true => simp [isRefreshFailure] at hf
    | false => exact ⟨rfl, rfl, rfl, rfl, rfl, rfl⟩

/-- Witness for C10 at a concrete token, a successful rotation response
and a network failure. -/
theorem refreshAccessToken_frame_witness :
    (refreshAccessToken 7 ⟨"A", "R", 9, none, [("name", "Jo")]⟩
        (.response true ⟨"A2", 60, some "R2"⟩)).rest = [("name", "Jo")] ∧
    (refreshAccessToken 7 ⟨"A", "R", 9, none, [("name", "Jo")]⟩
        .networkError).refreshToken = "R" :=
  ⟨(refreshAccessToken_frame 7 ⟨"A", "R", 9, none, [("name", "Jo")]⟩
      ⟨"A2", 60, some "R2"⟩ .networkError rfl).1,
   (refreshAccessToken_frame 7 ⟨"A", "R", 9, none, [("name", "Jo")]⟩
      ⟨"A2", 60, some "R2"⟩ .networkError rfl).2.2.2.1⟩


/-! ## Redirect policy: canonical origins and supporting lemmas -/

theorem toNat_ofNat_small (n : Nat) (h : n ≤ 122) : (Char.ofNat n).toNat = n := by
  unfold Char.ofNat
  rw [dif_pos (by left; omega : Nat.isValidChar n)]
  simp [Char.ofNatAux, Char.toNat, UInt32.toNat]

theorem lowerChar_of_not_upper (c : Char) (h : ¬(65 ≤ c.toNat ∧ c.toNat ≤ 90)) :
    lowerChar c = c := by
  unfold lowerChar
  exact if_neg h

theorem lowerChar_toNat_of_upper (c : Char) (h : 65 ≤ c.toNat ∧ c.toNat ≤ 90) :
    (lowerChar c).toNat = c.toNat + 32 := by
  unfold lowerChar
  rw [if_pos h]
  exact toNat_ofNat_small _ (by omega)

/-- Each character's code point after lowercasing: unchanged, or shifted
from A-Z into a-z. -/
theorem lowerChar_cases (c : Char) :
    lowerChar c = c ∨
      ((lowerChar c).toNat = c.toNat + 32 ∧ 65 ≤ c.toNat ∧ c.toNat ≤ 90) := by
  by_cases h : 65 ≤ c.toNat ∧ c.toNat ≤ 90
  · exact Or.inr ⟨lowerChar_toNat_of_upper c h, h⟩
  · exact Or.inl (lowerChar_of_not_upper c h)

theorem lowerChar_idem (c : Char) : lowerChar (lowerChar c) = lowerChar c := by
  rcases lowerChar_cases c with h | ⟨h1, h2, h3⟩
  · rw [h]
    exact h
  · exact lowerChar_of_not_upper _ (by omega)

theorem mem_mapLower_fixed (l : List Char) (c : Char) (h : c ∈ mapLower l) :
    lowerChar c = c := by
  obtain ⟨x, hx, rfl⟩ := List.mem_map.mp h
  exact lowerChar_idem x

theorem dropWhile_append_last {p : Char → Bool} (l : List Char) (c : Char)
    (hc : p c = false) :
    (l ++ [c]).dropWhile p = l.dropWhile p ++ [c] := by
  induction l with
  | nil =>
    rw [List.nil_append, List.dropWhile_cons_of_neg (by simp [hc] : ¬p c = true)]
    rfl
  | cons a t ih =>
    by_cases ha : p a
    · rw [List.cons_append, List.dropWhile_cons_of_pos ha, List.dropWhile_cons_of_pos ha, ih]
    · rw [List.cons_append, List.dropWhile_cons_of_neg ha, List.dropWhile_cons_of_neg ha,
        List.cons_append]

